import Mathlib

/-
Verification of the stream state-sharing and derived-property engine
(`thermosteam/stream.py`).

The embedding uses exact rationals for numeric values.  Where numpy
floating-point semantics matter (division by zero producing NaN or
infinity), scalars are embedded as `Option ℚ`: `some q` is a finite
value, `none` is any non-finite result (NaN or infinity); `fdiv`
reproduces numpy division on this representation.  Mutable Python
objects (`ThermalCondition`, the molar-flow array, the phase object and
the derived-view cache dictionary of the flow indexer) live in a heap
indexed by natural-number references, so object identity and aliasing
are first-class.
-/

namespace ThermoSpec

/-- Thermal condition object: a mutable (temperature, pressure) pair,
as in `thermal_condition.ThermalCondition`. -/
structure ThermalCondition where
  T : ℚ
  P : ℚ
deriving DecidableEq, Repr

/-- Heap of the mutable objects a stream's facets point at: thermal
conditions, molar-flow data arrays, phase objects, and derived-view
cache dictionaries (`_data_cache`, content abstracted as a list of
opaque entries).  Each heap comes with an allocation counter; references
below the counter are the allocated ones. -/
structure State where
  tpH : Nat → ThermalCondition
  datH : Nat → List ℚ
  phH : Nat → String
  caH : Nat → List Nat
  nTp : Nat
  nDat : Nat
  nPh : Nat
  nCa : Nat

/-- A stream object: references to its four mutable facets
(`_TP`, `_imol._data`, `_imol._phase`, `_imol._data_cache`), the
thermodynamic context (`_thermo`, an opaque token), the registered
identity `_ID`, and the slot attributes `price`, `_sink`, `_source`.
An outer `none` on `price`, `sink`, `source` means the slot was never
assigned, so reading it raises `AttributeError`. -/
structure StreamObj where
  tp : Nat
  dat : Nat
  ph : Nat
  ca : Nat
  thermo : Nat
  ID : Option String
  price : Option ℚ
  sink : Option (Option Nat)
  source : Option (Option Nat)
deriving DecidableEq, Repr

/-- A stream is valid in a state when all four facet references are
allocated. -/
def StreamObj.valid (s : StreamObj) (σ : State) : Prop :=
  s.tp < σ.nTp ∧ s.dat < σ.nDat ∧ s.ph < σ.nPh ∧ s.ca < σ.nCa

instance (s : StreamObj) (σ : State) : Decidable (s.valid σ) := by
  unfold StreamObj.valid
  infer_instance

/-- Read `stream.T` (property getter `self._TP.T`). -/
def readT (σ : State) (s : StreamObj) : ℚ := (σ.tpH s.tp).T

/-- Read `stream.P` (property getter `self._TP.P`). -/
def readP (σ : State) (s : StreamObj) : ℚ := (σ.tpH s.tp).P

/-- Read `stream.mol` (the molar data array `self._imol._data`). -/
def readMol (σ : State) (s : StreamObj) : List ℚ := σ.datH s.dat

/-- Read `stream.phase` (property getter `self._imol._phase.phase`). -/
def readPhase (σ : State) (s : StreamObj) : String := σ.phH s.ph

/-- Read the content of the derived-view cache `self._imol._data_cache`. -/
def readDataCache (σ : State) (s : StreamObj) : List Nat := σ.caH s.ca

/-- Write `stream.T = v`: mutates the `ThermalCondition` object in place. -/
def writeT (σ : State) (s : StreamObj) (v : ℚ) : State :=
  { σ with tpH := Function.update σ.tpH s.tp { σ.tpH s.tp with T := v } }

/-- Write `stream.P = v`: mutates the `ThermalCondition` object in place. -/
def writeP (σ : State) (s : StreamObj) (v : ℚ) : State :=
  { σ with tpH := Function.update σ.tpH s.tp { σ.tpH s.tp with P := v } }

/-- Write `stream.mol[:] = v`: mutates the molar data array in place. -/
def writeMol (σ : State) (s : StreamObj) (v : List ℚ) : State :=
  { σ with datH := Function.update σ.datH s.dat v }

/-- Write `stream.phase = v`: mutates the phase object in place
(`self._imol._phase.phase = v`). -/
def writePhase (σ : State) (s : StreamObj) (v : String) : State :=
  { σ with phH := Function.update σ.phH s.ph v }

/-- `Stream.link(self, other, TP=True, flow=True, phase=True)`.
If all three flags are set, `self._imol._data_cache` is rebound to
`other`'s cache object (shared, not cleared); otherwise both streams'
cache objects are cleared in place.  Then each selected facet reference
of `self` is rebound to `other`'s corresponding object.  Returns the new
heap and the updated `self`; `other`'s references never change. -/
def Stream.link (σ : State) (a b : StreamObj) (TP flow phase : Bool) :
    State × StreamObj :=
  let σ₁ : State :=
    if TP && flow && phase then σ
    else { σ with caH := Function.update (Function.update σ.caH a.ca []) b.ca [] }
  let a₁ : StreamObj := if TP && flow && phase then { a with ca := b.ca } else a
  let a₂ : StreamObj := if TP then { a₁ with tp := b.tp } else a₁
  let a₃ : StreamObj := if flow then { a₂ with dat := b.dat } else a₂
  let a₄ : StreamObj := if phase then { a₃ with ph := b.ph } else a₃
  (σ₁, a₄)

/-- `Stream.unlink(self)`: clears the cache dictionary in place (the
cache reference itself is kept), then rebinds `_TP`, `_imol._data` and
`_imol._phase` to freshly allocated copies holding the current values. -/
def Stream.unlink (σ : State) (a : StreamObj) : State × StreamObj :=
  let σ₁ : State := { σ with caH := Function.update σ.caH a.ca [] }
  let σ₂ : State :=
    { σ₁ with tpH := Function.update σ₁.tpH σ.nTp (σ.tpH a.tp), nTp := σ.nTp + 1 }
  let σ₃ : State :=
    { σ₂ with datH := Function.update σ₂.datH σ.nDat (σ.datH a.dat), nDat := σ.nDat + 1 }
  let σ₄ : State :=
    { σ₃ with phH := Function.update σ₃.phH σ.nPh (σ.phH a.ph), nPh := σ.nPh + 1 }
  (σ₄, { a with tp := σ.nTp, dat := σ.nDat, ph := σ.nPh })

/-- `Stream.copy(self)`: allocates a new stream with `_ID = None`, the
same `_thermo`, and fresh `_TP` and flow-store objects holding the same
numeric content.  `price`, `_sink` and `_source` are never assigned.
Modelled from the spec: `self._imol.copy()` (from the external
material-indexer module) yields a fresh flow store — new data array and
phase object with the same values and a new empty derived-view cache —
never aliasing the original. -/
def Stream.copy (σ : State) (s : StreamObj) : State × StreamObj :=
  let σ₁ : State :=
    { σ with tpH := Function.update σ.tpH σ.nTp (σ.tpH s.tp), nTp := σ.nTp + 1 }
  let σ₂ : State :=
    { σ₁ with datH := Function.update σ₁.datH σ.nDat (σ.datH s.dat), nDat := σ.nDat + 1 }
  let σ₃ : State :=
    { σ₂ with phH := Function.update σ₂.phH σ.nPh (σ.phH s.ph), nPh := σ.nPh + 1 }
  let σ₄ : State :=
    { σ₃ with caH := Function.update σ₃.caH σ.nCa [], nCa := σ.nCa + 1 }
  (σ₄, { tp := σ.nTp, dat := σ.nDat, ph := σ.nPh, ca := σ.nCa,
         thermo := s.thermo, ID := none, price := none,
         sink := none, source := none })

/-- Python-level errors surfaced by the accessors. -/
inductive PyErr where
  | attributeError (attr : String)
  | dimensionError (msg : String)
  | valueError (msg : String)
deriving DecidableEq, Repr

/-- Read `stream.price`: raises `AttributeError` when the slot was never
assigned. -/
def Stream.priceRead (s : StreamObj) : Except PyErr ℚ :=
  match s.price with
  | some p => .ok p
  | none => .error (.attributeError "price")

/-- Read `stream.sink` (property getter `self._sink`). -/
def Stream.sinkRead (s : StreamObj) : Except PyErr (Option Nat) :=
  match s.sink with
  | some v => .ok v
  | none => .error (.attributeError "_sink")

/-- Read `stream.source` (property getter `self._source`). -/
def Stream.sourceRead (s : StreamObj) : Except PyErr (Option Nat) :=
  match s.source with
  | some v => .ok v
  | none => .error (.attributeError "_source")

/-- Elementwise dot-product sum, `(a * b).sum()` on aligned arrays. -/
def dotSum (a b : List ℚ) : ℚ := (List.zipWith (· * ·) a b).sum

/-- Read `stream.cost = self.price * self.F_mass`; `self.price` is read
first, so an unassigned `price` slot raises before the mass flow is
computed.  `MWc` is the molecular-weight array `self.chemicals.MW`. -/
def Stream.costRead (MWc : List ℚ) (σ : State) (s : StreamObj) : Except PyErr ℚ :=
  match s.price with
  | none => .error (.attributeError "price")
  | some p => .ok (p * dotSum MWc (readMol σ s))

/-- Assign `stream.price = v`. -/
def Stream.setPrice (s : StreamObj) (v : ℚ) : StreamObj :=
  { s with price := some v }

/-- Numpy scalar division on finite-or-not values: `some a / some b` is
`some (a / b)` for `b ≠ 0`; division by zero (`0/0` is NaN, `a/0` is a
signed infinity) and any operation on a non-finite operand yield a
non-finite result, collapsed to `none`. -/
def fdiv (x y : Option ℚ) : Option ℚ :=
  match x, y with
  | some a, some b => if b = 0 then none else some (a / b)
  | _, _ => none

/-- The external mixture-correlation collaborator (`self.mixture`):
property models as functions of phase, composition and the thermal
condition, with fixed but arbitrary behaviour. -/
structure Mixture where
  V_at_TP : String → List ℚ → ℚ × ℚ → ℚ
  mu_at_TP : String → List ℚ → ℚ × ℚ → ℚ
  kappa_at_TP : String → List ℚ → ℚ × ℚ → ℚ
  Cn_at_TP : String → List ℚ → ℚ × ℚ → ℚ
  sigma_at_TP : List ℚ → ℚ × ℚ → ℚ
  epsilon_at_TP : List ℚ → ℚ × ℚ → ℚ

/-- The value state a derived property reads: phase tag, temperature,
pressure and the molar composition array.  The Derived Property Layer is
stateless, so properties are pure functions of this data. -/
structure PStream where
  phase : String
  T : ℚ
  P : ℚ
  mol : List ℚ
deriving DecidableEq, Repr

/-- `Stream.F_mol`: `self.mol.sum()`. -/
def Stream.F_mol (s : PStream) : ℚ := s.mol.sum

/-- `Stream.F_mass`: `(self.chemicals.MW * self.mol).sum()`. -/
def Stream.F_mass (MWc : List ℚ) (s : PStream) : ℚ :=
  dotSum MWc s.mol

/-- `Stream.z_mol`: `mol / F_mol if F_mol else mol.copy()`. -/
def Stream.z_mol (s : PStream) : List ℚ :=
  if Stream.F_mol s = 0 then s.mol else s.mol.map (· / Stream.F_mol s)

/-- `Stream.z_mass`: `mass / F_mass if F_mass else mass` where
`mass = self.chemicals.MW * self.mol`. -/
def Stream.z_mass (MWc : List ℚ) (s : PStream) : List ℚ :=
  let mass := List.zipWith (· * ·) MWc s.mol
  if mass.sum = 0 then mass else mass.map (· / mass.sum)

/-- `Stream.z_vol`: `vol / F_vol if F_vol else vol` where `vol` is the
volumetric view of the flow store; `Vmc` is the per-chemical molar
volume at the current thermal condition, so `vol = Vmc * mol`
elementwise (Flow Store basis-conversion contract). -/
def Stream.z_vol (Vmc : List ℚ) (s : PStream) : List ℚ :=
  let vol := List.zipWith (· * ·) Vmc s.mol
  if vol.sum = 0 then vol else vol.map (· / vol.sum)

/-- `Stream.V`: `mixture.V_at_TP(phase, mol / F_mol, TP) if F_mol else 0`.
The second component counts calls to the mixture collaborator. -/
def Stream.V_prop (mx : Mixture) (s : PStream) : ℚ × Nat :=
  if Stream.F_mol s = 0 then (0, 0)
  else (mx.V_at_TP s.phase (s.mol.map (· / Stream.F_mol s)) (s.T, s.P), 1)

/-- `Stream.mu`: `mixture.mu_at_TP(phase, mol / F_mol, TP) if F_mol else 0`. -/
def Stream.mu_prop (mx : Mixture) (s : PStream) : ℚ × Nat :=
  if Stream.F_mol s = 0 then (0, 0)
  else (mx.mu_at_TP s.phase (s.mol.map (· / Stream.F_mol s)) (s.T, s.P), 1)

/-- `Stream.kappa`: `mixture.kappa_at_TP(phase, mol / F_mol, TP) if F_mol else 0`. -/
def Stream.kappa_prop (mx : Mixture) (s : PStream) : ℚ × Nat :=
  if Stream.F_mol s = 0 then (0, 0)
  else (mx.kappa_at_TP s.phase (s.mol.map (· / Stream.F_mol s)) (s.T, s.P), 1)

/-- `Stream.Cn`: `mixture.Cn_at_TP(phase, mol / F_mol, TP) if F_mol else 0`. -/
def Stream.Cn_prop (mx : Mixture) (s : PStream) : ℚ × Nat :=
  if Stream.F_mol s = 0 then (0, 0)
  else (mx.Cn_at_TP s.phase (s.mol.map (· / Stream.F_mol s)) (s.T, s.P), 1)

/-- `Stream.sigma`: `mixture.sigma_at_TP(mol / F_mol, TP) if F_mol else 0`. -/
def Stream.sigma_prop (mx : Mixture) (s : PStream) : ℚ × Nat :=
  if Stream.F_mol s = 0 then (0, 0)
  else (mx.sigma_at_TP (s.mol.map (· / Stream.F_mol s)) (s.T, s.P), 1)

/-- `Stream.epsilon`: `mixture.epsilon_at_TP(mol / F_mol, TP) if F_mol else 0`. -/
def Stream.epsilon_prop (mx : Mixture) (s : PStream) : ℚ × Nat :=
  if Stream.F_mol s = 0 then (0, 0)
  else (mx.epsilon_at_TP (s.mol.map (· / Stream.F_mol s)) (s.T, s.P), 1)

/-- `Stream.MW`: `self.F_mass / self.F_mol` — an UNGUARDED numpy
division, so at zero total flow it is `0/0`, a non-finite NaN. -/
def Stream.MW (MWc : List ℚ) (s : PStream) : Option ℚ :=
  fdiv (some (Stream.F_mass MWc s)) (some (Stream.F_mol s))

/-- Modelled from the spec: `fn.V_to_rho` (from the external
`functional` module) converts molar volume and molar mass to mass
density, `rho = MW / V` up to a constant positive unit factor, which is
omitted because it affects neither zero nor non-finite classification. -/
def V_to_rho (V MWv : Option ℚ) : Option ℚ := fdiv MWv V

/-- Modelled from the spec: `fn.mu_to_nu` (external `functional`
module) converts dynamic to kinematic viscosity, `nu = mu / rho`. -/
def mu_to_nu (muv rhov : Option ℚ) : Option ℚ := fdiv muv rhov

/-- `Stream.rho`: `fn.V_to_rho(self.V, self.MW)`. -/
def Stream.rho_prop (mx : Mixture) (MWc : List ℚ) (s : PStream) : Option ℚ × Nat :=
  let v := Stream.V_prop mx s
  (V_to_rho (some v.1) (Stream.MW MWc s), v.2)

/-- `Stream.nu`: `fn.mu_to_nu(self.mu, self.rho)`. -/
def Stream.nu_prop (mx : Mixture) (MWc : List ℚ) (s : PStream) : Option ℚ × Nat :=
  let m := Stream.mu_prop mx s
  let r := Stream.rho_prop mx MWc s
  (mu_to_nu (some m.1) r.1, m.2 + r.2)

/-- `Stream.Cp`: `self.Cn / self.MW` (numpy division). -/
def Stream.Cp_prop (mx : Mixture) (MWc : List ℚ) (s : PStream) : Option ℚ × Nat :=
  let c := Stream.Cn_prop mx s
  (fdiv (some c.1) (Stream.MW MWc s), c.2)

/-- `Stream.Pr`: `fn.Pr(self.Cp, self.mu, self.k)`.  Python evaluates
the arguments left to right: `self.Cp` and `self.mu` are computed (each
consulting the mixture collaborator when total flow is nonzero), then
`self.k` raises `AttributeError` — the class defines `kappa` but no
attribute `k` and `k` is not in `__slots__` — so `fn.Pr` is never
reached and the read always fails.  The count records mixture calls made
before the raise. -/
def Stream.Pr_prop (mx : Mixture) (MWc : List ℚ) (s : PStream) :
    Except PyErr (Option ℚ) × Nat :=
  let cp := Stream.Cp_prop mx MWc s
  let m := Stream.mu_prop mx s
  (.error (.attributeError "k"), cp.2 + m.2)

/-- The three canonical flow bases the unit resolver can select
(`imol`, `imass`, `ivol`). -/
inductive FlowBasis where
  | imol
  | imass
  | ivol
deriving DecidableEq, Repr

/-- The external dimensional-analysis collaborator
(`thermo_units.get_dimensionality` and the canonical units of the three
indexer kinds): a dimensionality function on unit strings, the
dimensionality of each canonical basis, and the conversion-factor
function of each basis. -/
structure UnitSystem where
  dim : String → String
  molDim : String
  massDim : String
  volDim : String
  molFactor : String → ℚ
  massFactor : String → ℚ
  volFactor : String → ℚ

/-- The class-level `_index_cache` dictionary: unit string to
(basis, factor), most recent insertion first. -/
def IndexCache : Type := List (String × FlowBasis × ℚ)

/-- Dictionary lookup in the `_index_cache`. -/
def cacheLookup (c : IndexCache) (u : String) : Option (FlowBasis × ℚ) :=
  match c with
  | [] => none
  | (v, r) :: rest => if v = u then some r else cacheLookup rest u

/-- The cache-miss path of `Stream._get_indexer_and_factor`: compare the
dimensionality of `units` against the molar, mass and volumetric
canonical dimensionalities in that order; raise `DimensionError` when
none matches. -/
def freshResolve (U : UnitSystem) (u : String) : Except PyErr (FlowBasis × ℚ) :=
  let d := U.dim u
  if d = U.molDim then .ok (.imol, U.molFactor u)
  else if d = U.massDim then .ok (.imass, U.massFactor u)
  else if d = U.volDim then .ok (.ivol, U.volFactor u)
  else .error (.dimensionError d)

/-- `Stream._get_indexer_and_factor(self, units)`: consult the
process-wide `_index_cache` first; on a miss resolve freshly and store
the result under the unit string.  Returns the (basis, factor) pair and
the updated cache. -/
def Stream.getIndexerAndFactor (U : UnitSystem) (c : IndexCache) (u : String) :
    Except PyErr ((FlowBasis × ℚ) × IndexCache) :=
  match cacheLookup c u with
  | some r => .ok (r, c)
  | none =>
    match freshResolve U u with
    | .ok r => .ok (r, (u, r) :: c)
    | .error e => .error e

/-- Well-formed cache: every stored entry is what fresh resolution would
produce (the cache is only ever filled by `getIndexerAndFactor`). -/
def cacheWF (U : UnitSystem) (c : IndexCache) : Prop :=
  ∀ u r, cacheLookup c u = some r → freshResolve U u = .ok r

/-- Reading view of a basis on the canonical molar array: the molar view
is the array itself; the mass view is `MW * mol` elementwise; the
volumetric view is `Vm * mol` elementwise (Flow Store basis-conversion
contract, with `MWc` the molecular weights and `Vmc` the per-chemical
molar volumes at the current thermal condition). -/
def basisView (b : FlowBasis) (MWc Vmc mol : List ℚ) : List ℚ :=
  match b with
  | .imol => mol
  | .imass => List.zipWith (· * ·) MWc mol
  | .ivol => List.zipWith (· * ·) Vmc mol

/-- Writing a full data array through a basis view: the molar basis
stores the data directly; the mass and volumetric views write through to
the canonical molar array by dividing out the per-chemical conversion
entry. -/
def basisWrite (b : FlowBasis) (MWc Vmc data : List ℚ) : List ℚ :=
  match b with
  | .imol => data
  | .imass => List.zipWith (fun mw d => d / mw) MWc data
  | .ivol => List.zipWith (fun vm d => d / vm) Vmc data

/-- `Stream.get_flow(self, units)` (full chemical slice): resolve the
unit string, read the matching basis view, multiply by the factor.
Returns the values and the updated `_index_cache`. -/
def Stream.get_flow (U : UnitSystem) (MWc Vmc : List ℚ) (c : IndexCache)
    (mol : List ℚ) (u : String) : Except PyErr (List ℚ × IndexCache) :=
  match Stream.getIndexerAndFactor U c u with
  | .error e => .error e
  | .ok (r, c') => .ok ((basisView r.1 MWc Vmc mol).map (r.2 * ·), c')

/-- `Stream.set_flow(self, data, units)` (full chemical slice): resolve
the unit string, divide the supplied values by the factor, write them
through the matching basis view.  Returns the new canonical molar array
and the updated `_index_cache`. -/
def Stream.set_flow (U : UnitSystem) (MWc Vmc : List ℚ) (c : IndexCache)
    (data : List ℚ) (u : String) : Except PyErr (List ℚ × IndexCache) :=
  match Stream.getIndexerAndFactor U c u with
  | .error e => .error e
  | .ok (r, c') => .ok (basisWrite r.1 MWc Vmc (data.map (· / r.2)), c')

/-- `Stream.F_mol` setter: `self.mol[:] *= value / self.F_mol`.  The
scalar `value / F_mol` is computed once from the current state, then
every entry is scaled in place.  The zero-current-flow case (numpy
division by zero, non-finite entries) is outside this model; every
theorem below assumes nonzero current flow as the claim does. -/
def Stream.F_mol_set (s : PStream) (value : ℚ) : List ℚ :=
  s.mol.map (· * (value / Stream.F_mol s))

/-- `Stream.F_mass` setter: `self.mol[:] *= value / self.F_mass`. -/
def Stream.F_mass_set (MWc : List ℚ) (s : PStream) (value : ℚ) : List ℚ :=
  s.mol.map (· * (value / Stream.F_mass MWc s))

/-- `Stream.F_vol` getter: `self.mixture.V_at_TP(self.phase, self.mol,
self._TP)` (extensive, un-normalized composition). -/
def Stream.F_vol (mx : Mixture) (s : PStream) : ℚ :=
  mx.V_at_TP s.phase s.mol (s.T, s.P)

/-- `Stream.F_vol` setter: `self.vol[:] *= value / self.F_vol`.  The
volumetric view entries `Vmc * mol` are scaled by the factor and written
through to the canonical molar array by dividing out `Vmc`. -/
def Stream.F_vol_set (mx : Mixture) (Vmc : List ℚ) (s : PStream) (value : ℚ) :
    List ℚ :=
  let k := value / Stream.F_vol mx s
  List.zipWith (fun vm m => (vm * m * k) / vm) Vmc s.mol

/-- Whether a stream has been cast to the multi-phase representation
(`self.__class__` reassigned to `MultiStream` by the `phases` setter). -/
inductive StreamKind where
  | single
  | multi
deriving DecidableEq, Repr

/-- The casting-relevant view of a stream: its current behavioural kind,
the single-phase tag, the phase set (present only after a cast), the
`_vle` equilibrium-cache handle (an opaque token, present only after a
cast) and a token allocator. -/
structure CStream where
  kind : StreamKind
  phase : String
  phasesVal : Option String
  vle : Option Nat
  nextHandle : Nat
deriving DecidableEq, Repr

/-- Read `stream.phases`.  On the single-phase class the property getter
unconditionally raises `AttributeError` and performs no mutation (the
state is returned unchanged).  Modelled from the spec for the post-cast
class: `MultiStream.phases` returns the stored phase set. -/
def Stream.phasesRead (s : CStream) : CStream × Except PyErr String :=
  match s.kind with
  | .single => (s, .error (.attributeError "phases"))
  | .multi =>
    match s.phasesVal with
    | some ps => (s, .ok ps)
    | none => (s, .error (.attributeError "phases"))

/-- The `phases` setter: reassigns the behavioural class to the
multi-phase kind, reshapes the flow store to the given phase set
(`self._imol.to_material_indexer(phases)`), and attaches a fresh
equilibrium-solver cache handle (`self._vle = Cache(eq.VLE, ...)`). -/
def Stream.phasesAssign (s : CStream) (ps : String) : CStream :=
  { s with kind := .multi, phasesVal := some ps,
           vle := some s.nextHandle, nextHandle := s.nextHandle + 1 }

/-- Read `stream.vle`.  On the single-phase class the getter executes
`self.phases = gl-set` (the cast, as a side effect of the read) and then
re-reads `self.vle`, which now resolves on the multi-phase class.
Modelled from the spec for the post-cast class: `MultiStream.vle`
returns the attached `_vle` equilibrium handle. -/
def Stream.vleRead (s : CStream) : CStream × Except PyErr Nat :=
  match s.kind with
  | .single =>
    let s' := Stream.phasesAssign s "gl"
    (s', match s'.vle with
         | some h => .ok h
         | none => .error (.attributeError "_vle"))
  | .multi =>
    (s, match s.vle with
        | some h => .ok h
        | none => .error (.attributeError "_vle"))

/-- Behaviour of `Stream.link` required by the specification, for one
call `a.link(b, TP, flow, phase)` on initially independent streams:
selected facet references of `a` become identical to `b`'s while
unselected ones are untouched; writes through a shared facet are
observed by the partner and writes through an unshared facet are not;
the derived-view cache object is shared without clearing exactly when
all three facets are shared, and otherwise both caches are cleared. -/
def LinkSpecProp (σ : State) (a b : StreamObj) (TP flow phase : Bool) : Prop :=
  let σ' := (Stream.link σ a b TP flow phase).1
  let a' := (Stream.link σ a b TP flow phase).2
  (if TP then a'.tp = b.tp else a'.tp = a.tp) ∧
  (if flow then a'.dat = b.dat else a'.dat = a.dat) ∧
  (if phase then a'.ph = b.ph else a'.ph = a.ph) ∧
  σ'.tpH = σ.tpH ∧ σ'.datH = σ.datH ∧ σ'.phH = σ.phH ∧
  (TP = true → ∀ v,
    readT (writeT σ' a' v) b = v ∧ readT (writeT σ' b v) a' = v ∧
    readP (writeP σ' a' v) b = v ∧ readP (writeP σ' b v) a' = v) ∧
  (flow = true → ∀ v,
    readMol (writeMol σ' a' v) b = v ∧ readMol (writeMol σ' b v) a' = v) ∧
  (phase = true → ∀ v,
    readPhase (writePhase σ' a' v) b = v ∧
    readPhase (writePhase σ' b v) a' = v) ∧
  (TP = false → ∀ v,
    readT (writeT σ' a' v) b = readT σ' b ∧
    readT (writeT σ' b v) a' = readT σ' a') ∧
  (flow = false → ∀ v,
    readMol (writeMol σ' a' v) b = readMol σ' b ∧
    readMol (writeMol σ' b v) a' = readMol σ' a') ∧
  (phase = false → ∀ v,
    readPhase (writePhase σ' a' v) b = readPhase σ' b ∧
    readPhase (writePhase σ' b v) a' = readPhase σ' a') ∧
  (if TP && flow && phase then a'.ca = b.ca ∧ σ'.caH = σ.caH
   else σ'.caH a.ca = [] ∧ σ'.caH b.ca = [] ∧ a'.ca = a.ca)

/-- Behaviour of `Stream.unlink` required by the specification: the
derived-view cache is cleared; temperature, pressure, molar flows and
phase keep their current values; afterwards no write through the
unlinked stream is observable by any stream that existed before the
call (and conversely); and a second `unlink` leaves the numeric state
identical to the first. -/
def UnlinkSpecProp (σ : State) (a : StreamObj) : Prop :=
  let σ' := (Stream.unlink σ a).1
  let a' := (Stream.unlink σ a).2
  let σ'' := (Stream.unlink σ' a').1
  let a'' := (Stream.unlink σ' a').2
  readT σ' a' = readT σ a ∧ readP σ' a' = readP σ a ∧
  readMol σ' a' = readMol σ a ∧ readPhase σ' a' = readPhase σ a ∧
  readDataCache σ' a' = [] ∧
  (∀ b : StreamObj, b.valid σ →
    (∀ v, readT (writeT σ' a' v) b = readT σ' b) ∧
    (∀ v, readP (writeP σ' a' v) b = readP σ' b) ∧
    (∀ v, readMol (writeMol σ' a' v) b = readMol σ' b) ∧
    (∀ v, readPhase (writePhase σ' a' v) b = readPhase σ' b) ∧
    (∀ v, readT (writeT σ' b v) a' = readT σ' a') ∧
    (∀ v, readP (writeP σ' b v) a' = readP σ' a') ∧
    (∀ v, readMol (writeMol σ' b v) a' = readMol σ' a') ∧
    (∀ v, readPhase (writePhase σ' b v) a' = readPhase σ' a')) ∧
  readT σ'' a'' = readT σ' a' ∧ readP σ'' a'' = readP σ' a' ∧
  readMol σ'' a'' = readMol σ' a' ∧ readPhase σ'' a'' = readPhase σ' a' ∧
  readDataCache σ'' a'' = []

/-- Behaviour of `Stream.copy` required by the specification: the copy
is unregistered (`_ID` cleared), shares the thermodynamic context,
holds the same numeric content in fresh storage objects, leaves the
original untouched, and never aliases the original: writes to the
copy's flow, temperature, pressure or phase do not affect the original
and conversely. -/
def CopySpecProp (σ : State) (s : StreamObj) : Prop :=
  let σ' := (Stream.copy σ s).1
  let t := (Stream.copy σ s).2
  t.ID = none ∧ t.thermo = s.thermo ∧
  t.price = none ∧ t.sink = none ∧ t.source = none ∧
  readT σ' t = readT σ s ∧ readP σ' t = readP σ s ∧
  readMol σ' t = readMol σ s ∧ readPhase σ' t = readPhase σ s ∧
  readT σ' s = readT σ s ∧ readP σ' s = readP σ s ∧
  readMol σ' s = readMol σ s ∧ readPhase σ' s = readPhase σ s ∧
  t.tp ≠ s.tp ∧ t.dat ≠ s.dat ∧ t.ph ≠ s.ph ∧ t.ca ≠ s.ca ∧
  (∀ v, readT (writeT σ' t v) s = readT σ' s) ∧
  (∀ v, readP (writeP σ' t v) s = readP σ' s) ∧
  (∀ v, readMol (writeMol σ' t v) s = readMol σ' s) ∧
  (∀ v, readPhase (writePhase σ' t v) s = readPhase σ' s) ∧
  (∀ v, readT (writeT σ' s v) t = readT σ' t) ∧
  (∀ v, readP (writeP σ' s v) t = readP σ' t) ∧
  (∀ v, readMol (writeMol σ' s v) t = readMol σ' t) ∧
  (∀ v, readPhase (writePhase σ' s v) t = readPhase σ' t)

/-- Behaviour of `Stream._get_indexer_and_factor` required by the
specification, for a well-formed cache: resolution fails with a
`DimensionError` exactly when the unit string's dimensionality matches
none of the three canonical bases; on a match it returns the matching
basis with that basis's conversion factor; and a successful resolution
is cached so the same string thereafter resolves to the same pair while
keeping the cache well-formed. -/
def ResolveSpecProp (U : UnitSystem) (c : IndexCache) (u : String) : Prop :=
  ((∃ msg, Stream.getIndexerAndFactor U c u = .error (.dimensionError msg)) ↔
    (U.dim u ≠ U.molDim ∧ U.dim u ≠ U.massDim ∧ U.dim u ≠ U.volDim)) ∧
  (U.dim u = U.molDim → ∃ c',
    Stream.getIndexerAndFactor U c u = .ok ((.imol, U.molFactor u), c')) ∧
  (U.dim u = U.massDim → ∃ c',
    Stream.getIndexerAndFactor U c u = .ok ((.imass, U.massFactor u), c')) ∧
  (U.dim u = U.volDim → ∃ c',
    Stream.getIndexerAndFactor U c u = .ok ((.ivol, U.volFactor u), c')) ∧
  (∀ r c', Stream.getIndexerAndFactor U c u = .ok (r, c') →
    cacheWF U c' ∧ Stream.getIndexerAndFactor U c' u = .ok (r, c'))

/-- Concrete heap for witnesses: two thermal conditions, two data
arrays, two phase objects, two cache objects. -/
def exState : State where
  tpH := fun _ => { T := 29815 / 100, P := 101325 }
  datH := fun _ => [10, 5]
  phH := fun _ => "l"
  caH := fun _ => []
  nTp := 2
  nDat := 2
  nPh := 2
  nCa := 2

/-- Concrete stream on the first set of heap objects. -/
def exStreamA : StreamObj where
  tp := 0
  dat := 0
  ph := 0
  ca := 0
  thermo := 0
  ID := some "sA"
  price := some 0
  sink := some none
  source := some none

/-- Concrete stream on the second set of heap objects. -/
def exStreamB : StreamObj where
  tp := 1
  dat := 1
  ph := 1
  ca := 1
  thermo := 0
  ID := some "sB"
  price := some 0
  sink := some none
  source := some none

/-- Concrete mixture collaborator for witnesses: every correlation
returns 1. -/
def exMixture : Mixture where
  V_at_TP := fun _ _ _ => 1
  mu_at_TP := fun _ _ _ => 1
  kappa_at_TP := fun _ _ _ => 1
  Cn_at_TP := fun _ _ _ => 1
  sigma_at_TP := fun _ _ => 1
  epsilon_at_TP := fun _ _ => 1

/-- Concrete molecular weights (water, ethanol). -/
def exMW : List ℚ := [18, 46]

/-- Concrete per-chemical molar volumes. -/
def exVm : List ℚ := [18 / 1000000, 58 / 1000000]

/-- Concrete all-zero-composition stream state. -/
def exZeroStream : PStream where
  phase := "l"
  T := 29815 / 100
  P := 101325
  mol := [0, 0]

/-- Concrete stream state with nonzero flow (water 10, ethanol 5). -/
def exLiqStream : PStream where
  phase := "l"
  T := 29815 / 100
  P := 101325
  mol := [10, 5]

/-- Concrete unit system for witnesses: a dimensionality table covering
a molar, a mass and a volumetric unit string plus an unknown one, with
simple conversion factors. -/
def exUnits : UnitSystem where
  dim := fun u =>
    if u = "kmol/hr" then "[substance]/[time]"
    else if u = "lb/hr" then "[mass]/[time]"
    else if u = "kg/hr" then "[mass]/[time]"
    else if u = "m3/hr" then "[length]^3/[time]"
    else "[unknown]"
  molDim := "[substance]/[time]"
  massDim := "[mass]/[time]"
  volDim := "[length]^3/[time]"
  molFactor := fun _ => 1
  massFactor := fun u => if u = "lb/hr" then 22046 / 10000 else 1
  volFactor := fun _ => 1

/-- Concrete uncast stream for the phase-cast witnesses. -/
def exCStream : CStream where
  kind := .single
  phase := "l"
  phasesVal := none
  vle := none
  nextHandle := 0

/-- Actual zero-flow behaviour of the Derived Property Layer: the
composition fractions return the (all-zero) unnormalized vectors and the
guarded intensive properties return zero with no mixture call, but the
unguarded `MW` is the non-finite `0/0`, and `rho` and `nu`, which are
computed from it, are therefore non-finite as well (still with no
mixture call). -/
def ZeroFlowProp (mx : Mixture) (MWc Vmc : List ℚ) (s : PStream) : Prop :=
  Stream.z_mol s = s.mol ∧
  (∀ x ∈ Stream.z_mass MWc s, x = 0) ∧
  (∀ x ∈ Stream.z_vol Vmc s, x = 0) ∧
  Stream.V_prop mx s = (0, 0) ∧
  Stream.mu_prop mx s = (0, 0) ∧
  Stream.kappa_prop mx s = (0, 0) ∧
  Stream.Cn_prop mx s = (0, 0) ∧
  Stream.sigma_prop mx s = (0, 0) ∧
  Stream.epsilon_prop mx s = (0, 0) ∧
  Stream.MW MWc s = none ∧
  Stream.rho_prop mx MWc s = (none, 0) ∧
  Stream.nu_prop mx MWc s = (none, 0)

/-- Behaviour of the net-flow setters required by the specification:
each setter rescales the whole composition vector by (target / current
value of the corresponding net property), so setting `F_mol` to its
current value is the identity, setting it to twice its current value
doubles every component, and the new total molar flow equals the
assigned target. -/
def NetFlowSetterProp (mx : Mixture) (MWc Vmc : List ℚ) (s : PStream) : Prop :=
  (∀ v, Stream.F_mol_set s v = s.mol.map (· * (v / Stream.F_mol s))) ∧
  (∀ v, Stream.F_mass_set MWc s v =
    s.mol.map (· * (v / Stream.F_mass MWc s))) ∧
  (∀ v, Stream.F_vol_set mx Vmc s v =
    s.mol.map (· * (v / Stream.F_vol mx s))) ∧
  (∀ v, (Stream.F_mol_set s v).sum = v) ∧
  Stream.F_mol_set s (Stream.F_mol s) = s.mol ∧
  Stream.F_mol_set s (2 * Stream.F_mol s) = s.mol.map (2 * ·)

/-- Behaviour of the casting accessors required by the specification on
a stream that has never been cast: reading `phases` fails with the
missing-phase-set error and performs no cast, while reading `vle` casts
the stream to the multi-phase kind as a side effect and returns the
freshly attached equilibrium handle. -/
def CastSpecProp (s : CStream) : Prop :=
  (Stream.phasesRead s).1 = s ∧
  (Stream.phasesRead s).2 = Except.error (PyErr.attributeError "phases") ∧
  (Stream.vleRead s).1.kind = StreamKind.multi ∧
  (Stream.vleRead s).1.phasesVal = some "gl" ∧
  ∃ hdl, (Stream.vleRead s).1.vle = some hdl ∧
    (Stream.vleRead s).2 = Except.ok hdl

/-- Updating a function at two points with the same value, read back at
the first point, yields that value whether or not the points coincide. -/
theorem update_update_apply_left {α β : Type} [DecidableEq α] (f : α → β)
    (x y : α) (v : β) :
    Function.update (Function.update f x v) y v x = v := by
  rcases eq_or_ne x y with h | h
  · subst h
    simp
  · rw [Function.update_noteq h, Function.update_same]

/-- C1: after `a.link(b, shareThermal, shareFlow, sharePhase)` on
initially independent streams, each selected facet of `a` references
`b`'s storage object (so writes through either stream are observed by
the other) while unselected facets keep `a`'s own objects (so writes are
not observed); the derived-view cache object is shared without clearing
exactly when all three facets are shared, and otherwise both streams'
caches are cleared. -/
theorem Stream.link_spec (σ : State) (a b : StreamObj) (TP flow phase : Bool)
    (htp : a.tp ≠ b.tp) (hdat : a.dat ≠ b.dat) (hph : a.ph ≠ b.ph) :
    LinkSpecProp σ a b TP flow phase := by
  cases TP <;> cases flow <;> cases phase <;>
    simp [LinkSpecProp, Stream.link, readT, writeT, readP, writeP, readMol,
          writeMol, readPhase, writePhase, readDataCache,
          Function.update_same, Function.update_noteq,
          update_update_apply_left, htp, hdat, hph,
          Ne.symm htp, Ne.symm hdat, Ne.symm hph]

/-- Witness for C1: the linking specification holds on a concrete pair
of independent streams with only the flow facet shared. -/
theorem Stream.link_spec_witness :
    exStreamA.tp ≠ exStreamB.tp ∧ exStreamA.dat ≠ exStreamB.dat ∧
    exStreamA.ph ≠ exStreamB.ph ∧
    LinkSpecProp exState exStreamA exStreamB false true false :=
  ⟨by decide, by decide, by decide,
   Stream.link_spec exState exStreamA exStreamB false true false
     (by decide) (by decide) (by decide)⟩

/-- C2: `unlink` clears the derived-view cache, preserves the current
temperature, pressure, molar flows and phase in fresh independent
storage, is idempotent on the numeric state, and afterwards no mutation
of the stream is observable through any stream that existed before the
call (in particular any previously linked one), nor conversely. -/
theorem Stream.unlink_spec (σ : State) (a : StreamObj) : UnlinkSpecProp σ a := by
  simp only [UnlinkSpecProp, Stream.unlink]
  refine ⟨?_, ?_, ?_, ?_, ?_, fun b hb => ?_, ?_, ?_, ?_, ?_, ?_⟩ <;>
    first
    | (simp [readT, readP, readMol, readPhase, readDataCache, writeT, writeP,
             writeMol, writePhase, Function.update_same, Function.update_noteq]
       done)
    | (obtain ⟨h1, h2, h3, h4⟩ := hb
       simp [readT, readP, readMol, readPhase, writeT, writeP, writeMol,
             writePhase, Function.update_same, Function.update_noteq,
             h1.ne, h1.ne', h2.ne, h2.ne', h3.ne, h3.ne', h4.ne, h4.ne'])

/-- Witness for C2: the unlink specification holds on a concrete
stream. -/
theorem Stream.unlink_spec_witness : UnlinkSpecProp exState exStreamA :=
  Stream.unlink_spec exState exStreamA

/-- C8: `copy` returns a new stream with a cleared identity whose flow
store and thermal state are fresh objects holding the same numeric
content as the original's; the copy never aliases the original, so
mutating either stream's flow, temperature, pressure or phase leaves
the other unchanged. -/
theorem Stream.copy_spec (σ : State) (s : StreamObj) (h : s.valid σ) :
    CopySpecProp σ s := by
  obtain ⟨h1, h2, h3, h4⟩ := h
  simp only [CopySpecProp, Stream.copy]
  simp [readT, readP, readMol, readPhase, writeT, writeP, writeMol, writePhase,
        Function.update_same, Function.update_noteq,
        h1.ne, h1.ne', h2.ne, h2.ne', h3.ne, h3.ne', h4.ne, h4.ne']

/-- Witness for C8: the copy specification holds on a concrete valid
stream. -/
theorem Stream.copy_spec_witness :
    exStreamA.valid exState ∧ CopySpecProp exState exStreamA :=
  ⟨by decide, Stream.copy_spec exState exStreamA (by decide)⟩

/-- C10: the stream returned by `copy` has no price and no pipeline
connectivity initialized — only identity, thermodynamic context, flow
store and thermal state are set — so reading `price`, `cost`, `sink` or
`source` on the fresh copy raises `AttributeError` until `price` is
explicitly assigned, rather than returning the original's price or a
`None` sink/source. -/
theorem Stream.copy_uninitialized_attributes (MWc : List ℚ) (σ : State)
    (s : StreamObj) :
    Stream.priceRead (Stream.copy σ s).2 = .error (.attributeError "price") ∧
    Stream.costRead MWc (Stream.copy σ s).1 (Stream.copy σ s).2 =
      .error (.attributeError "price") ∧
    Stream.sinkRead (Stream.copy σ s).2 = .error (.attributeError "_sink") ∧
    Stream.sourceRead (Stream.copy σ s).2 = .error (.attributeError "_source") ∧
    (∀ v, Stream.priceRead (Stream.setPrice (Stream.copy σ s).2 v) = .ok v) :=
  ⟨rfl, rfl, rfl, rfl, fun _ => rfl⟩

/-- Elementwise products against an all-zero list are all zero. -/
theorem zipWith_mul_all_zero (A l : List ℚ) (h : ∀ x ∈ l, x = 0) :
    ∀ x ∈ List.zipWith (· * ·) A l, x = 0 := by
  induction A generalizing l with
  | nil => simp
  | cons a A ih =>
    cases l with
    | nil => simp
    | cons b l =>
      intro x hx
      rcases List.mem_cons.mp hx with hx | hx
      · have hb : b = 0 := h b (List.mem_cons_self b l)
        simp [hx, hb]
      · exact ih l (fun y hy => h y (List.mem_cons_of_mem b hy)) x hx

/-- Counterexample to C3: on a concrete stream with all-zero
composition, `rho` and `nu` are non-finite (NaN, from the unguarded
`MW = 0/0`), not zero as the claim states. -/
theorem Stream.rho_zero_flow_not_zero :
    (Stream.rho_prop exMixture exMW exZeroStream).1 = none ∧
    (Stream.rho_prop exMixture exMW exZeroStream).1 ≠ some 0 ∧
    (Stream.nu_prop exMixture exMW exZeroStream).1 ≠ some 0 ∧
    Stream.MW exMW exZeroStream = none := by
  have hsum : Stream.F_mol exZeroStream = 0 := by
    simp [Stream.F_mol, exZeroStream]
  have hmass0 : Stream.F_mass exMW exZeroStream = 0 := by
    simp [Stream.F_mass, dotSum, exMW, exZeroStream]
  refine ⟨?_, ?_, ?_, ?_⟩ <;>
    simp [Stream.rho_prop, Stream.nu_prop, V_to_rho, mu_to_nu, Stream.MW,
          Stream.V_prop, Stream.mu_prop, hsum, hmass0, fdiv]

/-- C3 (amended): for an all-zero composition the fraction vectors are
returned unnormalized (all zero) and the guarded intensive properties
(`V`, `mu`, `kappa`, `Cn`, `sigma`, `epsilon`) return zero, and the
mixture collaborator is never invoked; but the unguarded `MW` is the
non-finite `0/0`, so `rho` and `nu`, which derive from it, are
non-finite rather than zero. -/
theorem Stream.zero_flow_guard_spec (mx : Mixture) (MWc Vmc : List ℚ)
    (s : PStream) (h : ∀ x ∈ s.mol, x = 0) :
    ZeroFlowProp mx MWc Vmc s := by
  have hsum : Stream.F_mol s = 0 := List.sum_eq_zero h
  have hmass : ∀ x ∈ List.zipWith (· * ·) MWc s.mol, x = 0 :=
    zipWith_mul_all_zero MWc s.mol h
  have hvol : ∀ x ∈ List.zipWith (· * ·) Vmc s.mol, x = 0 :=
    zipWith_mul_all_zero Vmc s.mol h
  have hmass0 : (List.zipWith (· * ·) MWc s.mol).sum = 0 := List.sum_eq_zero hmass
  have hvol0 : (List.zipWith (· * ·) Vmc s.mol).sum = 0 := List.sum_eq_zero hvol
  refine ⟨?_, ?_, ?_, ?_, ?_, ?_, ?_, ?_, ?_, ?_, ?_, ?_⟩
  · simp [Stream.z_mol, hsum]
  · simpa [Stream.z_mass, hmass0] using hmass
  · simpa [Stream.z_vol, hvol0] using hvol
  · simp [Stream.V_prop, hsum]
  · simp [Stream.mu_prop, hsum]
  · simp [Stream.kappa_prop, hsum]
  · simp [Stream.Cn_prop, hsum]
  · simp [Stream.sigma_prop, hsum]
  · simp [Stream.epsilon_prop, hsum]
  · simp [Stream.MW, Stream.F_mass, dotSum, hsum, hmass0, fdiv]
  · simp [Stream.rho_prop, V_to_rho, Stream.MW, Stream.V_prop, Stream.F_mass,
          dotSum, hsum, hmass0, fdiv]
  · simp [Stream.nu_prop, mu_to_nu, Stream.rho_prop, V_to_rho, Stream.MW,
          Stream.mu_prop, Stream.V_prop, Stream.F_mass, dotSum, hsum, hmass0,
          fdiv]

/-- Witness for C3 (amended): the zero-flow behaviour holds on a
concrete all-zero stream. -/
theorem Stream.zero_flow_guard_witness :
    (∀ x ∈ exZeroStream.mol, x = (0 : ℚ)) ∧
    ZeroFlowProp exMixture exMW exVm exZeroStream :=
  ⟨by decide, Stream.zero_flow_guard_spec exMixture exMW exVm exZeroStream
    (by decide)⟩

/-- Counterexample to C9: on a concrete stream with nonzero flow,
reading `Pr` consults the mixture collaborator twice (computing `Cp`
via `Cn`, and `mu`) before the `AttributeError` on `k` is raised,
refuting that the access raises before the collaborator is ever
consulted. -/
theorem Stream.Pr_consults_mixture :
    (Stream.Pr_prop exMixture exMW exLiqStream).2 = 2 ∧
    (Stream.Pr_prop exMixture exMW exLiqStream).1 =
      .error (.attributeError "k") := by
  have h1 : Stream.F_mol exLiqStream ≠ 0 := by
    norm_num [Stream.F_mol, exLiqStream]
  refine ⟨?_, rfl⟩
  norm_num [Stream.Pr_prop, Stream.Cp_prop, Stream.Cn_prop, Stream.mu_prop, h1]

/-- C9 (amended): reading `Pr` always fails with an `AttributeError` on
the undefined attribute `k`, whatever the stream state; the arguments
`Cp` and `mu` are evaluated first, so the mixture collaborator is
consulted exactly as those two properties require (twice for nonzero
flow, never at zero flow) before the raise. -/
theorem Stream.Pr_always_fails (mx : Mixture) (MWc : List ℚ) (s : PStream) :
    (Stream.Pr_prop mx MWc s).1 = .error (.attributeError "k") ∧
    (Stream.Pr_prop mx MWc s).2 =
      (Stream.Cp_prop mx MWc s).2 + (Stream.mu_prop mx s).2 ∧
    (Stream.F_mol s = 0 → (Stream.Pr_prop mx MWc s).2 = 0) ∧
    (Stream.F_mol s ≠ 0 → (Stream.Pr_prop mx MWc s).2 = 2) := by
  refine ⟨rfl, rfl, fun h0 => ?_, fun h1 => ?_⟩
  · simp [Stream.Pr_prop, Stream.Cp_prop, Stream.Cn_prop, Stream.mu_prop, h0]
  · simp [Stream.Pr_prop, Stream.Cp_prop, Stream.Cn_prop, Stream.mu_prop, h1]

/-- Witness for C9 (amended): the Pr failure specification holds on a
concrete stream. -/
theorem Stream.Pr_always_fails_witness :
    (Stream.Pr_prop exMixture exMW exZeroStream).1 =
      .error (.attributeError "k") :=
  (Stream.Pr_always_fails exMixture exMW exZeroStream).1

/-- Fresh resolution succeeds only with a basis paired with that basis's
own conversion factor. -/
theorem freshResolve_factor (U : UnitSystem) (u : String) (b : FlowBasis) (f : ℚ)
    (h : freshResolve U u = .ok (b, f)) :
    (b = .imol ∧ f = U.molFactor u) ∨ (b = .imass ∧ f = U.massFactor u) ∨
    (b = .ivol ∧ f = U.volFactor u) := by
  simp only [freshResolve] at h
  by_cases h1 : U.dim u = U.molDim
  · rw [if_pos h1] at h
    simp only [Except.ok.injEq, Prod.mk.injEq] at h
    exact Or.inl ⟨h.1.symm, h.2.symm⟩
  · rw [if_neg h1] at h
    by_cases h2 : U.dim u = U.massDim
    · rw [if_pos h2] at h
      simp only [Except.ok.injEq, Prod.mk.injEq] at h
      exact Or.inr (Or.inl ⟨h.1.symm, h.2.symm⟩)
    · rw [if_neg h2] at h
      by_cases h3 : U.dim u = U.volDim
      · rw [if_pos h3] at h
        simp only [Except.ok.injEq, Prod.mk.injEq] at h
        exact Or.inr (Or.inr ⟨h.1.symm, h.2.symm⟩)
      · rw [if_neg h3] at h
        exact absurd h (by simp)

/-- After a successful resolution the result cache maps the unit string
to the returned pair. -/
theorem getIndexerAndFactor_lookup (U : UnitSystem) (c : IndexCache) (u : String)
    (r : FlowBasis × ℚ) (c' : IndexCache)
    (h : Stream.getIndexerAndFactor U c u = .ok (r, c')) :
    cacheLookup c' u = some r := by
  unfold Stream.getIndexerAndFactor at h
  cases hc : cacheLookup c u with
  | some r0 =>
    rw [hc] at h
    simp only [Except.ok.injEq, Prod.mk.injEq] at h
    rw [← h.2, ← h.1]
    exact hc
  | none =>
    rw [hc] at h
    cases hf : freshResolve U u with
    | ok r0 =>
      rw [hf] at h
      simp only [Except.ok.injEq, Prod.mk.injEq] at h
      rw [← h.2, ← h.1]
      simp [cacheLookup]
    | error e =>
      rw [hf] at h
      exact absurd h (by simp)

/-- On a well-formed cache, every successful resolution agrees with the
cache-miss resolution path. -/
theorem getIndexerAndFactor_fresh (U : UnitSystem) (c : IndexCache) (u : String)
    (r : FlowBasis × ℚ) (c' : IndexCache) (hwf : cacheWF U c)
    (h : Stream.getIndexerAndFactor U c u = .ok (r, c')) :
    freshResolve U u = .ok r := by
  unfold Stream.getIndexerAndFactor at h
  cases hc : cacheLookup c u with
  | some r0 =>
    rw [hc] at h
    simp only [Except.ok.injEq, Prod.mk.injEq] at h
    rw [← h.1]
    exact hwf u r0 hc
  | none =>
    rw [hc] at h
    cases hf : freshResolve U u with
    | ok r0 =>
      rw [hf] at h
      simp only [Except.ok.injEq, Prod.mk.injEq] at h
      rw [h.1]
    | error e =>
      rw [hf] at h
      exact absurd h (by simp)

/-- C6: resolution of a unit string fails with a `DimensionError`
exactly when its dimensionality matches none of the three canonical
bases; on a unique match it returns the matching basis and that basis's
conversion factor; and the result is cached under the unit string, so
the same string thereafter resolves to the same (basis, factor) pair
through a still well-formed cache. -/
theorem Stream.indexer_resolution_spec (U : UnitSystem) (c : IndexCache)
    (u : String) (hwf : cacheWF U c)
    (hd1 : U.molDim ≠ U.massDim) (hd2 : U.molDim ≠ U.volDim)
    (hd3 : U.massDim ≠ U.volDim) :
    ResolveSpecProp U c u := by
  unfold ResolveSpecProp
  have hcache : ∀ r c', Stream.getIndexerAndFactor U c u = .ok (r, c') →
      cacheWF U c' ∧ Stream.getIndexerAndFactor U c' u = .ok (r, c') := by
    intro r c' h
    have hl := getIndexerAndFactor_lookup U c u r c' h
    have hf := getIndexerAndFactor_fresh U c u r c' hwf h
    refine ⟨?_, ?_⟩
    · unfold Stream.getIndexerAndFactor at h
      cases hc : cacheLookup c u with
      | some r0 =>
        rw [hc] at h
        simp only [Except.ok.injEq, Prod.mk.injEq] at h
        rw [← h.2]
        exact hwf
      | none =>
        rw [hc] at h
        cases hfr : freshResolve U u with
        | ok r0 =>
          rw [hfr] at h
          simp only [Except.ok.injEq, Prod.mk.injEq] at h
          rw [← h.2]
          intro u' r' hl'
          simp only [cacheLookup] at hl'
          by_cases hu : u = u'
          · subst hu
            simp at hl'
            rw [← hl']
            exact hfr
          · rw [if_neg hu] at hl'
            exact hwf u' r' hl'
        | error e =>
          rw [hfr] at h
          exact absurd h (by simp)
    · simp [Stream.getIndexerAndFactor, hl]
  refine ⟨?_, ?_, ?_, ?_, hcache⟩
  · constructor
    · rintro ⟨msg, hmsg⟩
      refine ⟨?_, ?_, ?_⟩ <;> intro hdim <;>
        (unfold Stream.getIndexerAndFactor at hmsg
         cases hc : cacheLookup c u with
         | some r0 =>
           rw [hc] at hmsg
           exact absurd hmsg (by simp)
         | none =>
           rw [hc] at hmsg
           simp [freshResolve, hdim, hd1, hd2, hd3, Ne.symm hd1, Ne.symm hd2,
                 Ne.symm hd3] at hmsg)
    · rintro ⟨n1, n2, n3⟩
      cases hc : cacheLookup c u with
      | some r0 =>
        have hr := hwf u r0 hc
        rcases freshResolve_factor U u r0.1 r0.2 (by simpa using hr) with
          ⟨hb, _⟩ | ⟨hb, _⟩ | ⟨hb, _⟩ <;>
          (unfold freshResolve at hr
           simp [n1, n2, n3] at hr)
      | none =>
        refine ⟨U.dim u, ?_⟩
        simp [Stream.getIndexerAndFactor, hc, freshResolve, n1, n2, n3]
  · intro h1
    cases hc : cacheLookup c u with
    | some r0 =>
      have hr := hwf u r0 hc
      have : r0 = (FlowBasis.imol, U.molFactor u) := by
        unfold freshResolve at hr
        rw [if_pos h1] at hr
        exact (Except.ok.injEq _ _).mp hr.symm
      refine ⟨c, ?_⟩
      simp [Stream.getIndexerAndFactor, hc, this]
    | none =>
      refine ⟨(u, (FlowBasis.imol, U.molFactor u)) :: c, ?_⟩
      simp [Stream.getIndexerAndFactor, hc, freshResolve, h1]
  · intro h2
    have h1 : U.dim u ≠ U.molDim := by
      rw [h2]
      exact Ne.symm hd1
    cases hc : cacheLookup c u with
    | some r0 =>
      have hr := hwf u r0 hc
      have : r0 = (FlowBasis.imass, U.massFactor u) := by
        unfold freshResolve at hr
        rw [if_neg h1, if_pos h2] at hr
        exact (Except.ok.injEq _ _).mp hr.symm
      refine ⟨c, ?_⟩
      simp [Stream.getIndexerAndFactor, hc, this]
    | none =>
      refine ⟨(u, (FlowBasis.imass, U.massFactor u)) :: c, ?_⟩
      simp [Stream.getIndexerAndFactor, hc, freshResolve, h1, h2, Ne.symm hd1]
  · intro h3
    have h1 : U.dim u ≠ U.molDim := by
      rw [h3]
      exact Ne.symm hd2
    have h2 : U.dim u ≠ U.massDim := by
      rw [h3]
      exact Ne.symm hd3
    cases hc : cacheLookup c u with
    | some r0 =>
      have hr := hwf u r0 hc
      have : r0 = (FlowBasis.ivol, U.volFactor u) := by
        unfold freshResolve at hr
        rw [if_neg h1, if_neg h2, if_pos h3] at hr
        exact (Except.ok.injEq _ _).mp hr.symm
      refine ⟨c, ?_⟩
      simp [Stream.getIndexerAndFactor, hc, this]
    | none =>
      refine ⟨(u, (FlowBasis.ivol, U.volFactor u)) :: c, ?_⟩
      simp [Stream.getIndexerAndFactor, hc, freshResolve, h1, h2, h3,
            Ne.symm hd2, Ne.symm hd3]

/-- Witness for C6: the resolution specification holds for a concrete
unit table, the empty cache and the unit string of mass dimension. -/
theorem Stream.indexer_resolution_spec_witness :
    cacheWF exUnits [] ∧ ResolveSpecProp exUnits [] "lb/hr" :=
  ⟨fun u r h => absurd h (by simp [cacheLookup]),
   Stream.indexer_resolution_spec exUnits [] "lb/hr"
     (fun u r h => absurd h (by simp [cacheLookup]))
     (by decide) (by decide) (by decide)⟩

/-- Scaling a list by a nonzero factor and dividing it out again is the
identity. -/
theorem map_mul_div_cancel (f : ℚ) (hf : f ≠ 0) (l : List ℚ) :
    (l.map (f * ·)).map (· / f) = l := by
  induction l with
  | nil => rfl
  | cons a l ih => simp [ih, mul_div_cancel_left₀ a hf]

/-- Dividing the elementwise product `A * l` back by `A` recovers `l`
when the entries of `A` are nonzero and the lengths agree. -/
theorem zipWith_div_zipWith_mul (A l : List ℚ) (hA : ∀ x ∈ A, x ≠ 0)
    (hlen : A.length = l.length) :
    List.zipWith (fun a d => d / a) A (List.zipWith (· * ·) A l) = l := by
  induction A generalizing l with
  | nil =>
    cases l with
    | nil => rfl
    | cons b l => simp at hlen
  | cons a A ih =>
    cases l with
    | nil => simp at hlen
    | cons b l =>
      have ha : a ≠ 0 := hA a (List.mem_cons_self a A)
      simp only [List.zipWith]
      rw [mul_div_cancel_left₀ b ha,
          ih l (fun x hx => hA x (List.mem_cons_of_mem a hx)) (by simpa using hlen)]

/-- C4: for every unit string that resolves to one of the three bases
(with nonzero conversion factor and, for the mass and volumetric bases,
nonzero per-chemical conversion entries), `set_flow(get_flow(u), u)`
leaves the canonical molar storage exactly unchanged. -/
theorem Stream.set_get_flow_roundtrip (U : UnitSystem) (MWc Vmc : List ℚ)
    (c : IndexCache) (mol : List ℚ) (u : String) (d : List ℚ) (c' : IndexCache)
    (hwf : cacheWF U c)
    (hMW : ∀ x ∈ MWc, x ≠ 0) (hVm : ∀ x ∈ Vmc, x ≠ 0)
    (hMWlen : MWc.length = mol.length) (hVmlen : Vmc.length = mol.length)
    (hmolf : U.molFactor u ≠ 0) (hmassf : U.massFactor u ≠ 0)
    (hvolf : U.volFactor u ≠ 0)
    (hget : Stream.get_flow U MWc Vmc c mol u = .ok (d, c')) :
    Stream.set_flow U MWc Vmc c' d u = .ok (mol, c') := by
  unfold Stream.get_flow at hget
  cases hg : Stream.getIndexerAndFactor U c u with
  | error e =>
    rw [hg] at hget
    exact absurd hget (by simp)
  | ok rc =>
    obtain ⟨⟨b, f⟩, c₀⟩ := rc
    rw [hg] at hget
    simp only [Except.ok.injEq, Prod.mk.injEq] at hget
    obtain ⟨hd, hc'⟩ := hget
    subst hc'
    have hlook : cacheLookup c₀ u = some (b, f) :=
      getIndexerAndFactor_lookup U c u (b, f) c₀ hg
    have hfr : freshResolve U u = .ok (b, f) :=
      getIndexerAndFactor_fresh U c u (b, f) c₀ hwf hg
    unfold Stream.set_flow
    rw [show Stream.getIndexerAndFactor U c₀ u = .ok ((b, f), c₀) by
      simp [Stream.getIndexerAndFactor, hlook]]
    rw [← hd]
    rcases freshResolve_factor U u b f hfr with ⟨hb, hf⟩ | ⟨hb, hf⟩ | ⟨hb, hf⟩ <;>
      subst hb <;> subst hf
    · simp [basisView, basisWrite, map_mul_div_cancel _ hmolf]
    · simp [basisView, basisWrite, map_mul_div_cancel _ hmassf,
            zipWith_div_zipWith_mul MWc mol hMW hMWlen]
    · simp [basisView, basisWrite, map_mul_div_cancel _ hvolf,
            zipWith_div_zipWith_mul Vmc mol hVm hVmlen]

/-- Witness for C4: the round trip is the identity on a concrete stream
for a concrete molar-dimension unit string. -/
theorem Stream.set_get_flow_roundtrip_witness :
    Stream.set_flow exUnits exMW exVm
      [("kmol/hr", (FlowBasis.imol, 1))] [10, 5] "kmol/hr" =
      .ok ([10, 5], [("kmol/hr", (FlowBasis.imol, 1))]) :=
  Stream.set_get_flow_roundtrip exUnits exMW exVm [] [10, 5] "kmol/hr"
    [10, 5] [("kmol/hr", (FlowBasis.imol, 1))]
    (fun u r h => absurd h (by simp [cacheLookup]))
    (by norm_num [exMW]) (by norm_num [exVm])
    (by simp [exMW]) (by simp [exVm])
    (by simp [exUnits]) (by simp [exUnits]) (by simp [exUnits])
    (by simp [Stream.get_flow, Stream.getIndexerAndFactor, cacheLookup,
              freshResolve, exUnits, basisView])

/-- Scaling through the volumetric view and dividing the per-chemical
molar volume back out scales the molar vector itself. -/
theorem zipWith_vol_scale (A l : List ℚ) (k : ℚ) (hA : ∀ x ∈ A, x ≠ 0)
    (hlen : A.length = l.length) :
    List.zipWith (fun a m => (a * m * k) / a) A l = l.map (· * k) := by
  induction A generalizing l with
  | nil =>
    cases l with
    | nil => rfl
    | cons b l => simp at hlen
  | cons a A ih =>
    cases l with
    | nil => simp at hlen
    | cons b l =>
      have ha : a ≠ 0 := hA a (List.mem_cons_self a A)
      simp only [List.zipWith, List.map]
      rw [mul_assoc, mul_div_cancel_left₀ _ ha,
          ih l (fun x hx => hA x (List.mem_cons_of_mem a hx)) (by simpa using hlen)]

/-- C5: for a stream with nonzero current total flow, each net-flow
setter (`F_mol`, `F_mass`, `F_vol`) rescales the whole composition
vector by (target / current), preserving relative composition exactly;
in particular setting `F_mol` to its current value leaves the
composition unchanged, setting it to twice its current value doubles
every component, and the resulting total molar flow equals the assigned
target. -/
theorem Stream.net_flow_setter_spec (mx : Mixture) (MWc Vmc : List ℚ)
    (s : PStream) (hmol : Stream.F_mol s ≠ 0)
    (hVm : ∀ x ∈ Vmc, x ≠ 0) (hVmlen : Vmc.length = s.mol.length) :
    NetFlowSetterProp mx MWc Vmc s := by
  refine ⟨fun v => rfl, fun v => rfl, fun v => ?_, fun v => ?_, ?_, ?_⟩
  · exact zipWith_vol_scale Vmc s.mol (v / Stream.F_vol mx s) hVm hVmlen
  · have hm : s.mol.sum ≠ 0 := hmol
    show (s.mol.map (· * (v / Stream.F_mol s))).sum = v
    rw [List.sum_map_mul_right]
    simp only [List.map_id']
    show s.mol.sum * (v / s.mol.sum) = v
    field_simp
  · have h1 : Stream.F_mol s / Stream.F_mol s = 1 := div_self hmol
    show s.mol.map (· * (Stream.F_mol s / Stream.F_mol s)) = s.mol
    rw [h1]
    simp
  · have h2 : 2 * Stream.F_mol s / Stream.F_mol s = 2 := by
      rw [mul_div_assoc, div_self hmol, mul_one]
    show s.mol.map (· * (2 * Stream.F_mol s / Stream.F_mol s)) =
      s.mol.map (2 * ·)
    rw [h2]
    simp [mul_comm]

/-- Witness for C5: the net-flow setter specification holds on a
concrete stream with nonzero flow. -/
theorem Stream.net_flow_setter_witness :
    Stream.F_mol exLiqStream ≠ 0 ∧ (∀ x ∈ exVm, x ≠ (0 : ℚ)) ∧
    exVm.length = exLiqStream.mol.length ∧
    NetFlowSetterProp exMixture exMW exVm exLiqStream :=
  ⟨by norm_num [Stream.F_mol, exLiqStream], by norm_num [exVm],
   by simp [exVm, exLiqStream],
   Stream.net_flow_setter_spec exMixture exMW exVm exLiqStream
     (by norm_num [Stream.F_mol, exLiqStream]) (by norm_num [exVm])
     (by simp [exVm, exLiqStream])⟩

/-- C7: on a single-phase stream that has never been cast, reading the
`phases` accessor fails with the missing-phase-set error without
triggering a cast, while reading the `vle` accessor casts the stream to
the multi-phase kind as a side effect of the read and returns the
freshly attached equilibrium handle. -/
theorem Stream.phases_vle_cast_spec (s : CStream) (h : s.kind = .single) :
    CastSpecProp s := by
  obtain ⟨kind, ph, pv, vleH, nh⟩ := s
  cases kind with
  | single => exact ⟨rfl, rfl, rfl, rfl, ⟨nh, rfl, rfl⟩⟩
  | multi => exact absurd h (by simp)

/-- Witness for C7: the casting specification holds on a concrete
uncast stream. -/
theorem Stream.phases_vle_cast_witness :
    exCStream.kind = StreamKind.single ∧ CastSpecProp exCStream :=
  ⟨rfl, Stream.phases_vle_cast_spec exCStream rfl⟩

end ThermoSpec
